import Mathlib

/-!
Verification development for `src/symmetricinfo.py`, a Dash application that
plots insurance contracts and indifference curves under symmetric
information.

Modelling conventions: python/numpy floating-point numbers are modelled as
real numbers, numpy arrays as lists of reals, and `np.linspace` exactly by
its mathematical definition.  The Dash callback `update_plot`, which mutates
the module-level figure in place, is modelled as a state-passing function on
an explicit `Scene` value whose nine slots are the nine traces added to the
figure, in order.  A separate `Option`-valued variant of the indifference
curve (`indifference_curveF`) captures the definedness behaviour of the
numpy power operator on float64 (NaN and infinities are modelled as `none`).
-/

namespace InsurancePlots

/-- Initial endowment, `W0 = 100` in the source. -/
noncomputable def W0 : ℝ := 100

/-- Loss from accident, `L = 40` in the source. -/
noncomputable def L : ℝ := 40

/-- Probability of accident for the high-risk (bad, `s`) type, `p_s = 0.5`. -/
noncomputable def p_s : ℝ := 0.5

/-- Probability of accident for the low-risk (good, `g`) type, `p_g = 0.25`. -/
noncomputable def p_g : ℝ := 0.25

/-- Risk-aversion parameter, `alpha = 3`. -/
noncomputable def alpha : ℝ := 3

/-- Proportion of high-risk individuals, `share_high_risk = 0.5`. -/
noncomputable def share_high_risk : ℝ := 0.5

/-- CRRA expected utility, line 15 of the source:
`(1-p)*w1**(1-alpha)/(1-alpha) + p*w2**(1-alpha)/(1-alpha)`. -/
noncomputable def utility (wealth_no_accident wealth_accident probability alpha : ℝ) : ℝ :=
  (1 - probability) * wealth_no_accident ^ (1 - alpha) / (1 - alpha) +
    probability * wealth_accident ^ (1 - alpha) / (1 - alpha)

/-- The bracketed radicand of the indifference-curve formula, the argument of
the outer power in line 21 of the source. -/
noncomputable def radicand (wealth_no_accident utility_level probability alpha : ℝ) : ℝ :=
  (utility_level * (1 - alpha) -
      (1 - probability) * wealth_no_accident ^ (1 - alpha)) / probability

/-- Indifference curve, line 20 of the source: the radicand raised to the
power `1/(1-alpha)`, pointwise in the wealth argument. -/
noncomputable def indifference_curve
    (wealth_no_accident utility_level probability alpha : ℝ) : ℝ :=
  radicand wealth_no_accident utility_level probability alpha ^ (1 / (1 - alpha))

/-- Exact model of `np.linspace a b num`: `num` evenly spaced samples from
`a` to `b` inclusive, the i-th sample being `a + (b-a)*i/(num-1)`. -/
noncomputable def linspace (a b : ℝ) (num : ℕ) : List ℝ :=
  (List.range num).map fun i : ℕ => a + (b - a) * (i : ℝ) / ((num : ℝ) - 1)

/-- Contract possibility line, line 25 of the source: coverage on a
100-point grid over `[0, L]`, premium `p*c`, wealths
`W0 - p*c` and `W0 - p*c - (L - c)`. -/
noncomputable def contract_possibility_line (W0 L probability : ℝ) : List ℝ × List ℝ :=
  ((linspace 0 L 100).map fun c => W0 - probability * c,
   (linspace 0 L 100).map fun c => W0 - probability * c - (L - c))

/-- Pooled contract line, line 33 of the source: the contract possibility
line at the population-expected probability. -/
noncomputable def pooled_contract_line (W0 L p_g p_s share_high_risk : ℝ) : List ℝ × List ℝ :=
  contract_possibility_line W0 L (share_high_risk * p_s + (1 - share_high_risk) * p_g)

/-- Dense x grid, line 39 of the source: `np.linspace(0, W0+50, W0+50)` with
`W0 = 100`, so 150 samples spanning `[0, 150]`. -/
noncomputable def x_vals : List ℝ := linspace 0 (W0 + 50) 150

/-- Seed utility level for the high-risk slider, line 40 of the source. -/
noncomputable def init_utility_s : ℝ := utility W0 (W0 - L) p_s alpha

/-- Seed utility level for the low-risk slider, line 41 of the source. -/
noncomputable def init_utility_g : ℝ := utility W0 (W0 - L) p_g alpha

/-- Reference maximal utility for the high-risk slider, line 42 of the
source: `utility(W0 - p_g*L, W0 - p_s*L, 0, alpha)`. -/
noncomputable def max_utility_s : ℝ := utility (W0 - p_g * L) (W0 - p_s * L) 0 alpha

/-- Reference maximal utility for the low-risk slider, line 43 of the
source: the same expression as `max_utility_s`. -/
noncomputable def max_utility_g : ℝ := utility (W0 - p_g * L) (W0 - p_s * L) 0 alpha

/-- Seeded high-risk indifference curve, line 45 of the source. -/
noncomputable def indifference_curve_s : List ℝ :=
  x_vals.map fun x => indifference_curve x init_utility_s p_s alpha

/-- Seeded low-risk indifference curve, line 46 of the source. -/
noncomputable def indifference_curve_g : List ℝ :=
  x_vals.map fun x => indifference_curve x init_utility_g p_g alpha

/-- Full-insurance point for the high-risk type, line 52 of the source. -/
noncomputable def full_insurance_s : ℝ × ℝ := (W0 - p_s * L, W0 - p_s * L)

/-- Full-insurance point for the low-risk type, line 53 of the source. -/
noncomputable def full_insurance_g : ℝ × ℝ := (W0 - p_g * L, W0 - p_g * L)

/-- One plotted trace: paired x and y arrays. -/
structure Curve where
  x : List ℝ
  y : List ℝ

/-- The nine traces added to the figure in lines 63 to 85 of the source, in
order; the last two are the mutable indifference-curve slots. -/
structure Scene where
  contract_s : Curve
  contract_g : Curve
  pooled : Curve
  certainty : Curve
  full_ins_s : Curve
  full_ins_g : Curve
  no_insurance : Curve
  indiff_s : Curve
  indiff_g : Curve

/-- The initial figure built at startup, lines 60 to 85 of the source. -/
noncomputable def init_scene : Scene where
  contract_s := ⟨(contract_possibility_line W0 L p_s).1, (contract_possibility_line W0 L p_s).2⟩
  contract_g := ⟨(contract_possibility_line W0 L p_g).1, (contract_possibility_line W0 L p_g).2⟩
  pooled := ⟨(pooled_contract_line W0 L p_g p_s share_high_risk).1,
    (pooled_contract_line W0 L p_g p_s share_high_risk).2⟩
  certainty := ⟨[0, 150], [0, 150]⟩
  full_ins_s := ⟨[full_insurance_s.1], [full_insurance_s.2]⟩
  full_ins_g := ⟨[full_insurance_g.1], [full_insurance_g.2]⟩
  no_insurance := ⟨[W0], [W0 - L]⟩
  indiff_s := ⟨x_vals, indifference_curve_s⟩
  indiff_g := ⟨x_vals, indifference_curve_g⟩

/-- The Dash callback `update_plot`, lines 134 to 143 of the source, as a
state-passing function: both mutable slots receive freshly computed y-values
over the global `x_vals` grid; their x-values and all static slots are left
as they were. -/
noncomputable def update_plot (new_utility_s new_utility_g : ℝ) (fig : Scene) : Scene :=
  { fig with
    indiff_s := ⟨fig.indiff_s.x, x_vals.map fun x => indifference_curve x new_utility_s p_s alpha⟩
    indiff_g := ⟨fig.indiff_g.x, x_vals.map fun x => indifference_curve x new_utility_g p_g alpha⟩ }

/-- Configuration of one `dcc.Slider`. -/
structure SliderConfig where
  min : ℝ
  max : ℝ
  value : ℝ
  step : ℝ

/-- The high-risk slider configuration, lines 104 to 112 of the source. -/
noncomputable def s_slider : SliderConfig where
  min := init_utility_s
  max := max_utility_s + 0.5 * (max_utility_s - init_utility_s)
  value := init_utility_s
  step := (max_utility_s + 0.5 * (max_utility_s - init_utility_s) - init_utility_s) / 100

/-- The low-risk slider configuration, lines 116 to 124 of the source. -/
noncomputable def g_slider : SliderConfig where
  min := init_utility_g
  max := max_utility_g + 0.5 * (max_utility_g - init_utility_g)
  value := init_utility_g
  step := (max_utility_g + 0.5 * (max_utility_g - init_utility_g) - init_utility_g) / 100

open Classical in
/-- Definedness model of the numpy float64 power operator used in line 21 of
the source: a positive base gives the real power; a zero base gives the real
power for a nonnegative exponent and infinity (`none`) for a negative one; a
negative base gives the integer power when the exponent is an integral
float and NaN (`none`) otherwise.  No case raises an exception. -/
noncomputable def npPow (base expo : ℝ) : Option ℝ :=
  if 0 < base then some (base ^ expo)
  else if base = 0 then (if 0 ≤ expo then some (base ^ expo) else none)
  else if h : ∃ n : ℤ, (n : ℝ) = expo then some (base ^ h.choose) else none

/-- The indifference curve of line 20 of the source with the numpy
definedness of the outer power made explicit: `none` stands for a non-finite
(NaN or infinite) float64 result. -/
noncomputable def indifference_curveF
    (wealth_no_accident utility_level probability alpha : ℝ) : Option ℝ :=
  npPow (radicand wealth_no_accident utility_level probability alpha) (1 / (1 - alpha))

/-- Modelled from the spec: "Clamp `newValue` into the slider's configured
`[min,max]`" (section 4.3); values below `lo` become `lo`, values above `hi`
become `hi`. -/
noncomputable def clampVal (lo hi v : ℝ) : ℝ := max lo (min v hi)

/-- Modelled from the spec: the slider-event handler as the spec describes
it, clamping each incoming value into its slider's configured range before
recomputing.  To be compared with `update_plot`, which is what the source
actually does. -/
noncomputable def update_plot_clamped (new_utility_s new_utility_g : ℝ) (fig : Scene) : Scene :=
  update_plot (clampVal s_slider.min s_slider.max new_utility_s)
    (clampVal g_slider.min g_slider.max new_utility_g) fig

/-! Helper evaluation lemmas. -/

lemma rpow_one_sub_three (x : ℝ) : x ^ ((1 : ℝ) - 3) = (x ^ 2)⁻¹ := by
  rw [show ((1 : ℝ) - 3) = ((-2 : ℤ) : ℝ) by norm_num, Real.rpow_intCast, zpow_neg]
  norm_cast

lemma init_utility_s_eval : init_utility_s = -(17 / 180000 : ℝ) := by
  unfold init_utility_s utility W0 L p_s alpha
  rw [rpow_one_sub_three, rpow_one_sub_three]
  norm_num

lemma init_utility_g_eval : init_utility_g = -(13 / 180000 : ℝ) := by
  unfold init_utility_g utility W0 L p_g alpha
  rw [rpow_one_sub_three, rpow_one_sub_three]
  norm_num

lemma max_utility_s_eval : max_utility_s = -(1 / 16200 : ℝ) := by
  unfold max_utility_s utility W0 L p_s p_g alpha
  rw [rpow_one_sub_three, rpow_one_sub_three]
  norm_num

lemma s_slider_min_eval : s_slider.min = -(17 / 180000 : ℝ) := init_utility_s_eval

lemma s_slider_max_eval : s_slider.max = -(49 / 1080000 : ℝ) := by
  show max_utility_s + 0.5 * (max_utility_s - init_utility_s) = _
  rw [max_utility_s_eval, init_utility_s_eval]
  norm_num

lemma g_slider_min_eval : g_slider.min = -(13 / 180000 : ℝ) := init_utility_g_eval

lemma g_slider_max_eval : g_slider.max = -(61 / 1080000 : ℝ) := by
  show max_utility_g + 0.5 * (max_utility_g - init_utility_g) = _
  rw [show max_utility_g = -(1 / 16200 : ℝ) from max_utility_s_eval, init_utility_g_eval]
  norm_num

lemma linspace_length (a b : ℝ) (n : ℕ) : (linspace a b n).length = n := by
  unfold linspace
  rw [List.length_map, List.length_range]

lemma linspace_getElem (a b : ℝ) (n i : ℕ) (h : i < n) :
    (linspace a b n)[i]? = some (a + (b - a) * i / ((n : ℝ) - 1)) := by
  unfold linspace
  rw [List.getElem?_map, List.getElem?_range h]
  rfl

lemma contract_line_fst_getElem (W0 L p : ℝ) (i : ℕ) (h : i < 100) :
    (contract_possibility_line W0 L p).1[i]? = some (W0 - p * (L * i / 99)) := by
  unfold contract_possibility_line
  rw [List.getElem?_map, linspace_getElem 0 L 100 i h]
  norm_num

lemma contract_line_snd_getElem (W0 L p : ℝ) (i : ℕ) (h : i < 100) :
    (contract_possibility_line W0 L p).2[i]?
      = some (W0 - p * (L * i / 99) - (L - L * i / 99)) := by
  unfold contract_possibility_line
  rw [List.getElem?_map, linspace_getElem 0 L 100 i h]
  norm_num

/-! Claim C10. -/

/-- C10: for every probability p in (0,1) and parameters 0 < L < W0, the two
arrays returned by contract_possibility_line(W0, L, p) each have length 100,
the first point is the no-insurance allocation (W0, W0 - L), and the last
point is the full-insurance allocation (W0 - p*L, W0 - p*L), which lies on
the certainty line since its two coordinates are equal. -/
theorem contract_line_endpoints (W0 L p : ℝ) (hp0 : 0 < p) (hp1 : p < 1)
    (hL : 0 < L) (hLW : L < W0) :
    (contract_possibility_line W0 L p).1.length = 100 ∧
    (contract_possibility_line W0 L p).2.length = 100 ∧
    (contract_possibility_line W0 L p).1[0]? = some W0 ∧
    (contract_possibility_line W0 L p).2[0]? = some (W0 - L) ∧
    (contract_possibility_line W0 L p).1[99]? = some (W0 - p * L) ∧
    (contract_possibility_line W0 L p).2[99]? = some (W0 - p * L) := by
  refine ⟨?_, ?_, ?_, ?_, ?_, ?_⟩
  · unfold contract_possibility_line
    rw [List.length_map, linspace_length]
  · unfold contract_possibility_line
    rw [List.length_map, linspace_length]
  · rw [contract_line_fst_getElem W0 L p 0 (by norm_num)]
    norm_num
  · rw [contract_line_snd_getElem W0 L p 0 (by norm_num)]
    norm_num
  · rw [contract_line_fst_getElem W0 L p 99 (by norm_num)]
    norm_num
  · rw [contract_line_snd_getElem W0 L p 99 (by norm_num)]
    norm_num

/-- Witness for C10 at the application's parameters W0 = 100, L = 40,
p = 1/2. -/
theorem contract_line_endpoints_witness :
    (0 : ℝ) < 1 / 2 ∧ (1 : ℝ) / 2 < 1 ∧ (0 : ℝ) < 40 ∧ (40 : ℝ) < 100 ∧
    ((contract_possibility_line 100 40 (1 / 2)).1.length = 100 ∧
     (contract_possibility_line 100 40 (1 / 2)).2.length = 100 ∧
     (contract_possibility_line 100 40 (1 / 2)).1[0]? = some 100 ∧
     (contract_possibility_line 100 40 (1 / 2)).2[0]? = some (100 - 40) ∧
     (contract_possibility_line 100 40 (1 / 2)).1[99]? = some (100 - 1 / 2 * 40) ∧
     (contract_possibility_line 100 40 (1 / 2)).2[99]? = some (100 - 1 / 2 * 40)) :=
  ⟨by norm_num, by norm_num, by norm_num, by norm_num,
    contract_line_endpoints 100 40 (1 / 2) (by norm_num) (by norm_num) (by norm_num)
      (by norm_num)⟩

/-! Claim C5. -/

/-- C5 counterexample: at coverage c = 40, the last grid point, the
no-accident wealth of contract_possibility_line(100, 40, 0.5) is
100 - 0.5*40 = 80, not 100 as the claim states. -/
theorem contract_line_at_full_coverage_not_100 :
    (contract_possibility_line 100 40 (1 / 2)).1[99]? ≠ some 100 := by
  rw [contract_line_fst_getElem 100 40 (1 / 2) 99 (by norm_num)]
  norm_num

/-- C5 (amended): contract_possibility_line(W0, L, p) evaluates coverage
over a 100-point uniform grid on [0, L] (the i-th coverage being L*i/99)
and returns W0 - p*c and W0 - p*c - (L - c) pointwise; with W0 = 100,
L = 40, p = 0.5 the point for c = 0 is (100, 60) and the point for c = 40,
the last grid point, is (80, 80) — not (100, 100). -/
theorem contract_line_pointwise (W0 L p : ℝ) (i : ℕ) (hi : i < 100) :
    (contract_possibility_line W0 L p).1.length = 100 ∧
    (contract_possibility_line W0 L p).2.length = 100 ∧
    (contract_possibility_line W0 L p).1[i]? = some (W0 - p * (L * i / 99)) ∧
    (contract_possibility_line W0 L p).2[i]?
      = some (W0 - p * (L * i / 99) - (L - L * i / 99)) ∧
    (contract_possibility_line 100 40 (1 / 2)).1[0]? = some 100 ∧
    (contract_possibility_line 100 40 (1 / 2)).2[0]? = some 60 ∧
    (contract_possibility_line 100 40 (1 / 2)).1[99]? = some 80 ∧
    (contract_possibility_line 100 40 (1 / 2)).2[99]? = some 80 := by
  refine ⟨?_, ?_, contract_line_fst_getElem W0 L p i hi,
    contract_line_snd_getElem W0 L p i hi, ?_, ?_, ?_, ?_⟩
  · unfold contract_possibility_line
    rw [List.length_map, linspace_length]
  · unfold contract_possibility_line
    rw [List.length_map, linspace_length]
  · rw [contract_line_fst_getElem 100 40 (1 / 2) 0 (by norm_num)]
    norm_num
  · rw [contract_line_snd_getElem 100 40 (1 / 2) 0 (by norm_num)]
    norm_num
  · rw [contract_line_fst_getElem 100 40 (1 / 2) 99 (by norm_num)]
    norm_num
  · rw [contract_line_snd_getElem 100 40 (1 / 2) 99 (by norm_num)]
    norm_num

/-- Witness for C5 at grid index 0. -/
theorem contract_line_pointwise_witness :
    (0 : ℕ) < 100 ∧
    ((contract_possibility_line 100 40 (1 / 2)).1.length = 100 ∧
     (contract_possibility_line 100 40 (1 / 2)).2.length = 100 ∧
     (contract_possibility_line 100 40 (1 / 2)).1[(0 : ℕ)]?
       = some (100 - 1 / 2 * (40 * ((0 : ℕ) : ℝ) / 99)) ∧
     (contract_possibility_line 100 40 (1 / 2)).2[(0 : ℕ)]?
       = some (100 - 1 / 2 * (40 * ((0 : ℕ) : ℝ) / 99) - (40 - 40 * ((0 : ℕ) : ℝ) / 99)) ∧
     (contract_possibility_line 100 40 (1 / 2)).1[0]? = some 100 ∧
     (contract_possibility_line 100 40 (1 / 2)).2[0]? = some 60 ∧
     (contract_possibility_line 100 40 (1 / 2)).1[99]? = some 80 ∧
     (contract_possibility_line 100 40 (1 / 2)).2[99]? = some 80) :=
  ⟨by norm_num, contract_line_pointwise 100 40 (1 / 2) 0 (by norm_num)⟩

/-! Claim C7. -/

/-- C7 counterexample: the second sample of the dense x grid is
150/149, not 1, so consecutive samples are not one unit apart (the grid has
150 samples over [0, 150], spacing 150/149). -/
theorem x_vals_spacing_not_one : x_vals[1]? ≠ some 1 := by
  unfold x_vals W0
  rw [linspace_getElem 0 (100 + 50) 150 1 (by norm_num)]
  norm_num

/-- C7 (amended): the dense x grid is built once at startup, spans
[0, W0 + 50] = [0, 150] (first sample 0, last sample 150), contains exactly
W0 + 50 = 150 samples, with consecutive samples exactly 150/149 apart (not
exactly 1); every slider event reuses the identical grid: the handler leaves
the x-values of both mutable slots unchanged and recomputes their y-values
as a map over this same x_vals list. -/
theorem x_vals_grid (i : ℕ) (hi : i + 1 < 150) (v g : ℝ) (S : Scene) :
    x_vals.length = 150 ∧
    x_vals[0]? = some 0 ∧
    x_vals[149]? = some 150 ∧
    x_vals[i]? = some (150 * (i : ℝ) / 149) ∧
    x_vals[i + 1]? = some (150 * (i : ℝ) / 149 + 150 / 149) ∧
    (update_plot v g S).indiff_s.x = S.indiff_s.x ∧
    (update_plot v g S).indiff_g.x = S.indiff_g.x ∧
    (update_plot v g S).indiff_s.y = x_vals.map (fun t => indifference_curve t v p_s alpha) ∧
    (update_plot v g S).indiff_g.y = x_vals.map (fun t => indifference_curve t g p_g alpha) := by
  refine ⟨?_, ?_, ?_, ?_, ?_, rfl, rfl, rfl, rfl⟩
  · unfold x_vals
    rw [linspace_length]
  · unfold x_vals W0
    rw [linspace_getElem 0 (100 + 50) 150 0 (by norm_num)]
    norm_num
  · unfold x_vals W0
    rw [linspace_getElem 0 (100 + 50) 150 149 (by norm_num)]
    norm_num
  · unfold x_vals W0
    rw [linspace_getElem 0 (100 + 50) 150 i (by omega)]
    norm_num
  · unfold x_vals W0
    rw [linspace_getElem 0 (100 + 50) 150 (i + 1) hi]
    congr 1
    push_cast
    ring

/-- Witness for C7 at grid index 0, a zero slider event on the startup
scene. -/
theorem x_vals_grid_witness :
    (0 : ℕ) + 1 < 150 ∧
    (x_vals.length = 150 ∧
     x_vals[0]? = some 0 ∧
     x_vals[149]? = some 150 ∧
     x_vals[(0 : ℕ)]? = some (150 * ((0 : ℕ) : ℝ) / 149) ∧
     x_vals[(0 : ℕ) + 1]? = some (150 * ((0 : ℕ) : ℝ) / 149 + 150 / 149) ∧
     (update_plot 0 0 init_scene).indiff_s.x = init_scene.indiff_s.x ∧
     (update_plot 0 0 init_scene).indiff_g.x = init_scene.indiff_g.x ∧
     (update_plot 0 0 init_scene).indiff_s.y
       = x_vals.map (fun t => indifference_curve t 0 p_s alpha) ∧
     (update_plot 0 0 init_scene).indiff_g.y
       = x_vals.map (fun t => indifference_curve t 0 p_g alpha)) :=
  ⟨by norm_num, x_vals_grid 0 (by norm_num) 0 0 init_scene⟩

/-! Claim C3. -/

/-- C3: a slider event on one slider with the other slider's value unchanged
yields a Scene that differs from the previous Scene at most in the y-values
of that slider's mutable slot: the other indifference curve (as a whole),
all seven static slots, and the x-values of both mutable slots are
unchanged.  Stated for a previous scene produced by any earlier event
(first two groups) and for the startup scene with the other slider still at
its seed value (last group). -/
theorem slider_event_changes_one_slot (S : Scene) (s1 s2 g1 g2 sv gv : ℝ) :
    ((update_plot s2 gv (update_plot s1 gv S)).contract_s
        = (update_plot s1 gv S).contract_s ∧
     (update_plot s2 gv (update_plot s1 gv S)).contract_g
        = (update_plot s1 gv S).contract_g ∧
     (update_plot s2 gv (update_plot s1 gv S)).pooled = (update_plot s1 gv S).pooled ∧
     (update_plot s2 gv (update_plot s1 gv S)).certainty = (update_plot s1 gv S).certainty ∧
     (update_plot s2 gv (update_plot s1 gv S)).full_ins_s
        = (update_plot s1 gv S).full_ins_s ∧
     (update_plot s2 gv (update_plot s1 gv S)).full_ins_g
        = (update_plot s1 gv S).full_ins_g ∧
     (update_plot s2 gv (update_plot s1 gv S)).no_insurance
        = (update_plot s1 gv S).no_insurance ∧
     (update_plot s2 gv (update_plot s1 gv S)).indiff_g = (update_plot s1 gv S).indiff_g ∧
     (update_plot s2 gv (update_plot s1 gv S)).indiff_s.x
        = (update_plot s1 gv S).indiff_s.x) ∧
    ((update_plot sv g2 (update_plot sv g1 S)).contract_s
        = (update_plot sv g1 S).contract_s ∧
     (update_plot sv g2 (update_plot sv g1 S)).contract_g
        = (update_plot sv g1 S).contract_g ∧
     (update_plot sv g2 (update_plot sv g1 S)).pooled = (update_plot sv g1 S).pooled ∧
     (update_plot sv g2 (update_plot sv g1 S)).certainty = (update_plot sv g1 S).certainty ∧
     (update_plot sv g2 (update_plot sv g1 S)).full_ins_s
        = (update_plot sv g1 S).full_ins_s ∧
     (update_plot sv g2 (update_plot sv g1 S)).full_ins_g
        = (update_plot sv g1 S).full_ins_g ∧
     (update_plot sv g2 (update_plot sv g1 S)).no_insurance
        = (update_plot sv g1 S).no_insurance ∧
     (update_plot sv g2 (update_plot sv g1 S)).indiff_s = (update_plot sv g1 S).indiff_s ∧
     (update_plot sv g2 (update_plot sv g1 S)).indiff_g.x
        = (update_plot sv g1 S).indiff_g.x) ∧
    ((update_plot s2 init_utility_g init_scene).indiff_g = init_scene.indiff_g ∧
     (update_plot s2 init_utility_g init_scene).indiff_s.x = init_scene.indiff_s.x ∧
     (update_plot init_utility_s g2 init_scene).indiff_s = init_scene.indiff_s ∧
     (update_plot init_utility_s g2 init_scene).indiff_g.x = init_scene.indiff_g.x) :=
  ⟨⟨rfl, rfl, rfl, rfl, rfl, rfl, rfl, rfl, rfl⟩,
   ⟨rfl, rfl, rfl, rfl, rfl, rfl, rfl, rfl, rfl⟩,
   ⟨rfl, rfl, rfl, rfl⟩⟩

/-! Claim C8. -/

/-- C8: feeding a slider's own initialValue back through the handler
reproduces exactly the y-array SceneBuilder seeded for that slot (whatever
the other value and the previous scene), the handler is idempotent, and in
particular replaying both seed values on the startup scene reproduces it
exactly. -/
theorem round_trip_and_idempotent (S : Scene) (v w gv sv : ℝ) :
    (update_plot init_utility_s gv S).indiff_s.y = init_scene.indiff_s.y ∧
    (update_plot sv init_utility_g S).indiff_g.y = init_scene.indiff_g.y ∧
    update_plot v w (update_plot v w S) = update_plot v w S ∧
    update_plot init_utility_s init_utility_g init_scene = init_scene :=
  ⟨rfl, rfl, rfl, rfl⟩

/-! Claim C1. -/

/-- C1 counterexample: the high-risk slider's configured max is not the
utility at the high-risk type's full-insurance allocation
(W0 - p_s*L, W0 - p_s*L) = (80, 80) expanded by a 50 percent margin above
the slider's min; the source computes both sliders' max from
utility(W0 - p_g*L, W0 - p_s*L, 0, alpha) instead. -/
theorem s_slider_max_not_from_own_full_insurance :
    s_slider.max ≠
      utility (W0 - p_s * L) (W0 - p_s * L) p_s alpha +
        0.5 * (utility (W0 - p_s * L) (W0 - p_s * L) p_s alpha - s_slider.min) := by
  rw [s_slider_max_eval, s_slider_min_eval]
  unfold utility W0 L p_s alpha
  rw [rpow_one_sub_three]
  norm_num

/-- C1 (amended): for each slider, min equals the utility at the no-trade
allocation for its type, initialValue equals min, and step equals
(max - min)/100; max equals utility(W0 - p_g*L, W0 - p_s*L, 0, alpha)
expanded by a 50 percent margin above that slider's min — the same reference
utility for both sliders, which coincides with the utility at the low-risk
type's full-insurance allocation (last conjunct) but not with the high-risk
type's (see the counterexample). -/
theorem slider_config_spec :
    s_slider.min = utility W0 (W0 - L) p_s alpha ∧
    g_slider.min = utility W0 (W0 - L) p_g alpha ∧
    s_slider.value = s_slider.min ∧
    g_slider.value = g_slider.min ∧
    s_slider.step = (s_slider.max - s_slider.min) / 100 ∧
    g_slider.step = (g_slider.max - g_slider.min) / 100 ∧
    s_slider.max = utility (W0 - p_g * L) (W0 - p_s * L) 0 alpha +
      0.5 * (utility (W0 - p_g * L) (W0 - p_s * L) 0 alpha - s_slider.min) ∧
    g_slider.max = utility (W0 - p_g * L) (W0 - p_s * L) 0 alpha +
      0.5 * (utility (W0 - p_g * L) (W0 - p_s * L) 0 alpha - g_slider.min) ∧
    g_slider.max = utility (W0 - p_g * L) (W0 - p_g * L) p_g alpha +
      0.5 * (utility (W0 - p_g * L) (W0 - p_g * L) p_g alpha - g_slider.min) := by
  have h : utility (W0 - p_g * L) (W0 - p_s * L) 0 alpha
      = utility (W0 - p_g * L) (W0 - p_g * L) p_g alpha := by
    unfold utility
    ring
  refine ⟨rfl, rfl, rfl, rfl, rfl, rfl, rfl, rfl, ?_⟩
  show max_utility_g + 0.5 * (max_utility_g - init_utility_g) = _
  unfold max_utility_g
  rw [h]
  rfl

/-! Claim C4. -/

/-- C4: the indifference curve inverts utility in its second wealth
argument: for every x > 0, utility level u, probability p in (0,1) and
a > 1 such that the bracketed radicand is positive, the value
y = indifference_curve(x, u, p, a) satisfies utility(x, y, p, a) = u. -/
theorem indifference_curve_inverts_utility (x u p a : ℝ)
    (hx : 0 < x) (hp0 : 0 < p) (hp1 : p < 1) (ha : 1 < a)
    (hrad : 0 < radicand x u p a) :
    utility x (indifference_curve x u p a) p a = u := by
  have hb : (1 : ℝ) - a ≠ 0 := by
    intro h0
    rw [sub_eq_zero] at h0
    exact absurd h0.symm (ne_of_gt ha)
  unfold utility indifference_curve
  rw [← Real.rpow_mul hrad.le, one_div_mul_cancel hb, Real.rpow_one]
  unfold radicand
  field_simp

/-- Witness for C4 at x = 1, u = -1, p = 1/2, a = 3, where the radicand is
((-1)*(-2) - (1/2)*1)/(1/2) = 3 > 0. -/
theorem indifference_curve_inverts_utility_witness :
    (0 : ℝ) < 1 ∧ (0 : ℝ) < 1 / 2 ∧ (1 : ℝ) / 2 < 1 ∧ (1 : ℝ) < 3 ∧
    0 < radicand 1 (-1) (1 / 2) 3 ∧
    utility 1 (indifference_curve 1 (-1) (1 / 2) 3) (1 / 2) 3 = -1 := by
  have hr : (0 : ℝ) < radicand 1 (-1) (1 / 2) 3 := by
    unfold radicand
    rw [Real.one_rpow]
    norm_num
  exact ⟨by norm_num, by norm_num, by norm_num, by norm_num, hr,
    indifference_curve_inverts_utility 1 (-1) (1 / 2) 3 (by norm_num) (by norm_num)
      (by norm_num) (by norm_num) hr⟩

/-! Claim C9. -/

/-- C9 counterexample: the claim fails at alpha = 2, where the outer
exponent 1/(1-alpha) = -1 is an integral float: numpy evaluates a negative
base with an integral exponent to a finite value, so with x = 1, u = 1,
p = 1/2 the radicand is -3 < 0 yet the curve value is defined (finite), not
non-finite. -/
theorem negative_radicand_defined_at_alpha_two :
    radicand 1 1 (1 / 2) 2 < 0 ∧ indifference_curveF 1 1 (1 / 2) 2 ≠ none := by
  have hr : radicand 1 1 (1 / 2) 2 = -3 := by
    unfold radicand
    rw [Real.one_rpow]
    norm_num
  refine ⟨by rw [hr]; norm_num, ?_⟩
  unfold indifference_curveF npPow
  rw [hr]
  rw [if_neg (by norm_num), if_neg (by norm_num),
    dif_pos (show ∃ n : ℤ, (n : ℝ) = 1 / (1 - 2) from ⟨-1, by norm_num⟩)]
  exact Option.some_ne_none _

/-- C9 (amended): for every x, utility level u, probability p in (0,1) and
alpha > 1 whose outer exponent 1/(1-alpha) is not an integral float — as for
the application's alpha = 3 — a negative bracketed radicand makes the
numpy-evaluated curve value non-finite (modelled as none); the model is a
total function, so no error is raised, and such points simply appear as
non-finite entries in the output sequence. -/
theorem negative_radicand_nonfinite (x u p a : ℝ) (hp0 : 0 < p) (hp1 : p < 1)
    (ha : 1 < a) (hni : ∀ n : ℤ, (n : ℝ) ≠ 1 / (1 - a))
    (hrad : radicand x u p a < 0) :
    indifference_curveF x u p a = none := by
  unfold indifference_curveF npPow
  rw [if_neg (by exact not_lt.mpr hrad.le), if_neg (ne_of_lt hrad),
    dif_neg (by rintro ⟨n, hn⟩; exact hni n hn)]

/-- Witness for C9 at x = 1, u = 1, p = 1/2, alpha = 3, where the radicand
is -5 and the exponent -1/2 is not integral. -/
theorem negative_radicand_nonfinite_witness :
    (0 : ℝ) < 1 / 2 ∧ (1 : ℝ) / 2 < 1 ∧ (1 : ℝ) < 3 ∧
    (∀ n : ℤ, (n : ℝ) ≠ 1 / (1 - 3)) ∧
    radicand 1 1 (1 / 2) 3 < 0 ∧
    indifference_curveF 1 1 (1 / 2) 3 = none := by
  have hni : ∀ n : ℤ, (n : ℝ) ≠ 1 / (1 - (3 : ℝ)) := by
    intro n hn
    have h2 : ((2 * n : ℤ) : ℝ) = -1 := by
      push_cast
      rw [hn]
      norm_num
    have h3 : (2 * n : ℤ) = -1 := by exact_mod_cast h2
    omega
  have hr : radicand 1 1 (1 / 2) 3 < 0 := by
    unfold radicand
    rw [Real.one_rpow]
    norm_num
  exact ⟨by norm_num, by norm_num, by norm_num, hni, hr,
    negative_radicand_nonfinite 1 1 (1 / 2) 3 (by norm_num) (by norm_num) (by norm_num)
      hni hr⟩

/-! Claim C2. -/

lemma x_vals_getElem_149 : x_vals[149]? = some 150 := by
  unfold x_vals W0
  rw [linspace_getElem 0 (100 + 50) 150 149 (by norm_num)]
  norm_num

lemma update_indiff_s_149 (v g : ℝ) (S : Scene) :
    (update_plot v g S).indiff_s.y[149]? = some (indifference_curve 150 v p_s alpha) := by
  show (x_vals.map fun x => indifference_curve x v p_s alpha)[149]? = _
  rw [List.getElem?_map, x_vals_getElem_149]
  rfl

lemma radicand_150 (v : ℝ) : radicand 150 v p_s alpha = -4 * v - 1 / 22500 := by
  unfold radicand p_s alpha
  rw [rpow_one_sub_three]
  norm_num
  ring

lemma update_ne_clamped (v g : ℝ) (S : Scene) (hv : v < s_slider.min) :
    update_plot v g S ≠ update_plot_clamped v g S := by
  have hminmax : s_slider.min < s_slider.max := by
    rw [s_slider_min_eval, s_slider_max_eval]
    norm_num
  have hclamp : clampVal s_slider.min s_slider.max v = s_slider.min := by
    unfold clampVal
    rw [min_eq_left (le_of_lt (lt_trans hv hminmax)), max_eq_left (le_of_lt hv)]
  intro heq
  have h149 := congrArg (fun T : Scene => T.indiff_s.y[149]?) heq
  simp only [update_plot_clamped] at h149
  rw [hclamp, update_indiff_s_149, update_indiff_s_149] at h149
  have hinj := Option.some.inj h149
  unfold indifference_curve at hinj
  rw [radicand_150, radicand_150] at hinj
  have hbase : (-4 * s_slider.min - 1 / 22500 : ℝ) = 1 / 3000 := by
    rw [s_slider_min_eval]
    norm_num
  rw [hbase] at hinj
  have hv2 : v < -(17 / 180000 : ℝ) := by
    rw [s_slider_min_eval] at hv
    exact hv
  have hgt : (1 / 3000 : ℝ) < -4 * v - 1 / 22500 := by linarith
  have hlt := Real.rpow_lt_rpow_of_neg (by norm_num : (0 : ℝ) < 1 / 3000) hgt
    (by unfold alpha; norm_num : 1 / (1 - alpha) < 0)
  exact absurd hinj (ne_of_lt hlt)

/-- C2 counterexample: the controller does not clamp: feeding the high-risk
slider a value one below its configured min produces a scene that differs
from what the clamped recomputation described by the claim would produce
(the two curves differ at the last grid point x = 150). -/
theorem update_plot_not_clamped_counterexample :
    update_plot (init_utility_s - 1) init_utility_g init_scene ≠
      update_plot_clamped (init_utility_s - 1) init_utility_g init_scene :=
  update_ne_clamped (init_utility_s - 1) init_utility_g init_scene
    (by rw [s_slider_min_eval, init_utility_s_eval]; norm_num)

/-- C2 (amended): the controller never rejects an out-of-bounds value but
also never clamps it: the incoming value is propagated unclamped into the
recomputation of the mutable slot (first conjunct), and for any value
strictly below the slider's min the resulting scene differs from the scene
the spec's clamped handler would produce (second conjunct); bounds
enforcement is left entirely to the presentation layer. -/
theorem update_plot_uses_raw_value (v g : ℝ) (S : Scene) (hv : v < s_slider.min) :
    (update_plot v g S).indiff_s.y
      = x_vals.map (fun t => indifference_curve t v p_s alpha) ∧
    update_plot v g S ≠ update_plot_clamped v g S :=
  ⟨rfl, update_ne_clamped v g S hv⟩

/-- Witness for C2 with the value one below the high-risk slider's min, on
the startup scene. -/
theorem update_plot_uses_raw_value_witness :
    init_utility_s - 1 < s_slider.min ∧
    ((update_plot (init_utility_s - 1) 0 init_scene).indiff_s.y
        = x_vals.map (fun t => indifference_curve t (init_utility_s - 1) p_s alpha) ∧
     update_plot (init_utility_s - 1) 0 init_scene ≠
        update_plot_clamped (init_utility_s - 1) 0 init_scene) :=
  ⟨by rw [s_slider_min_eval, init_utility_s_eval]; norm_num,
   update_plot_uses_raw_value (init_utility_s - 1) 0 init_scene
     (by rw [s_slider_min_eval, init_utility_s_eval]; norm_num)⟩

/-! Claim C6. -/

lemma no_trade_utility_lt (W0 L p_low p_high p a : ℝ)
    (h0 : 0 < p_low) (h1 : p_low < p_high) (h2 : p_high < 1)
    (hL : 0 < L) (hLW : L < W0) (ha : 1 < a)
    (hp : p = p_low ∨ p = p_high) :
    utility W0 (W0 - L) p a < utility (W0 - p_low * L) (W0 - p_high * L) 0 a := by
  have hb : (1 : ℝ) - a < 0 := by linarith
  have hW0 : 0 < W0 := hL.trans hLW
  have hW1 : 0 < W0 - L := by linarith
  have hp0 : 0 < p := by rcases hp with h | h <;> rw [h] <;> linarith
  have hp1 : p < 1 := by rcases hp with h | h <;> rw [h] <;> linarith
  have hplow : p_low ≤ p := by rcases hp with h | h <;> rw [h] <;> linarith
  have hpL : p * L < L := by nlinarith
  have hWp : 0 < W0 - p * L := by linarith
  have hApW : W0 - p * L ≤ W0 - p_low * L := by nlinarith
  have hRHS : utility (W0 - p_low * L) (W0 - p_high * L) 0 a
      = (W0 - p_low * L) ^ (1 - a) / (1 - a) := by
    unfold utility
    ring
  have hLHS : utility W0 (W0 - L) p a
      = ((1 - p) * W0 ^ (1 - a) + p * (W0 - L) ^ (1 - a)) / (1 - a) := by
    unfold utility
    ring
  rw [hLHS, hRHS, div_lt_div_right_of_neg hb]
  have hG : 0 < W0 ^ (1 - p) * (W0 - L) ^ p :=
    mul_pos (Real.rpow_pos_of_pos hW0 _) (Real.rpow_pos_of_pos hW1 _)
  have hGle : W0 ^ (1 - p) * (W0 - L) ^ p ≤ W0 - p * L := by
    calc W0 ^ (1 - p) * (W0 - L) ^ p ≤ (1 - p) * W0 + p * (W0 - L) :=
          Real.geom_mean_le_arith_mean2_weighted (by linarith) hp0.le hW0.le hW1.le
            (by ring)
      _ = W0 - p * L := by ring
  have s1 : (W0 - p_low * L) ^ (1 - a) ≤ (W0 - p * L) ^ (1 - a) :=
    Real.rpow_le_rpow_of_nonpos hWp hApW hb.le
  have s2 : (W0 - p * L) ^ (1 - a) ≤ (W0 ^ (1 - p) * (W0 - L) ^ p) ^ (1 - a) :=
    Real.rpow_le_rpow_of_nonpos hG hGle hb.le
  have hlogne : Real.log W0 * (1 - a) ≠ Real.log (W0 - L) * (1 - a) := by
    have hlog : Real.log (W0 - L) < Real.log W0 := Real.log_lt_log hW1 (by linarith)
    intro hcon
    have hcancel := mul_right_cancel₀ (ne_of_lt hb) hcon
    linarith
  have hjensen := strictConvexOn_exp.2 (Set.mem_univ (Real.log W0 * (1 - a)))
    (Set.mem_univ (Real.log (W0 - L) * (1 - a))) hlogne
    (by linarith : (0 : ℝ) < 1 - p) hp0 (by ring)
  rw [smul_eq_mul, smul_eq_mul, smul_eq_mul, smul_eq_mul] at hjensen
  have e1 : Real.exp (Real.log W0 * (1 - a)) = W0 ^ (1 - a) :=
    (Real.rpow_def_of_pos hW0 _).symm
  have e2 : Real.exp (Real.log (W0 - L) * (1 - a)) = (W0 - L) ^ (1 - a) :=
    (Real.rpow_def_of_pos hW1 _).symm
  have e3 : Real.exp ((1 - p) * (Real.log W0 * (1 - a))
        + p * (Real.log (W0 - L) * (1 - a)))
      = (W0 ^ (1 - p) * (W0 - L) ^ p) ^ (1 - a) := by
    rw [Real.rpow_def_of_pos hG]
    congr 1
    rw [Real.log_mul (ne_of_gt (Real.rpow_pos_of_pos hW0 _))
        (ne_of_gt (Real.rpow_pos_of_pos hW1 _)),
      Real.log_rpow hW0, Real.log_rpow hW1]
    ring
  rw [e1, e2, e3] at hjensen
  calc (W0 - p_low * L) ^ (1 - a) ≤ (W0 - p * L) ^ (1 - a) := s1
    _ ≤ (W0 ^ (1 - p) * (W0 - L) ^ p) ^ (1 - a) := s2
    _ < (1 - p) * W0 ^ (1 - a) + p * (W0 - L) ^ (1 - a) := hjensen

/-- C6: for every parameter set with 0 < p_low < p_high < 1, 0 < L < W0 and
a > 1, and p equal to either probability, the no-trade utility
utility(W0, W0-L, p, a) — a well-defined real number, hence finite — is
strictly less than utility(W0 - p_low*L, W0 - p_high*L, 0, a); consequently,
at the application's parameters, each slider's configured max exceeds its
min. -/
theorem no_trade_lt_efficient (W0 L p_low p_high p a : ℝ)
    (h0 : 0 < p_low) (h1 : p_low < p_high) (h2 : p_high < 1)
    (hL : 0 < L) (hLW : L < W0) (ha : 1 < a)
    (hp : p = p_low ∨ p = p_high) :
    utility W0 (W0 - L) p a < utility (W0 - p_low * L) (W0 - p_high * L) 0 a ∧
    s_slider.min < s_slider.max ∧ g_slider.min < g_slider.max :=
  ⟨no_trade_utility_lt W0 L p_low p_high p a h0 h1 h2 hL hLW ha hp,
   by rw [s_slider_min_eval, s_slider_max_eval]; norm_num,
   by rw [g_slider_min_eval, g_slider_max_eval]; norm_num⟩

/-- Witness for C6 at the application's parameters with p = p_high = 1/2. -/
theorem no_trade_lt_efficient_witness :
    ((0 : ℝ) < 1 / 4 ∧ (1 : ℝ) / 4 < 1 / 2 ∧ (1 : ℝ) / 2 < 1 ∧
     (0 : ℝ) < 40 ∧ (40 : ℝ) < 100 ∧ (1 : ℝ) < 3 ∧
     ((1 : ℝ) / 2 = 1 / 4 ∨ (1 : ℝ) / 2 = 1 / 2)) ∧
    (utility 100 (100 - 40) (1 / 2) 3
        < utility (100 - 1 / 4 * 40) (100 - 1 / 2 * 40) 0 3 ∧
     s_slider.min < s_slider.max ∧ g_slider.min < g_slider.max) :=
  ⟨⟨by norm_num, by norm_num, by norm_num, by norm_num, by norm_num, by norm_num,
    Or.inr rfl⟩,
   no_trade_lt_efficient 100 40 (1 / 4) (1 / 2) (1 / 2) 3 (by norm_num) (by norm_num)
     (by norm_num) (by norm_num) (by norm_num) (by norm_num) (Or.inr rfl)⟩

end InsurancePlots
